import Mathlib

/-!
Verification development for the Journaling-Project news scoring and
verification pipeline.  The JavaScript services are shallowly embedded:
pure functions become Lean functions over `String`, `ℚ` (JS numbers in
the exact-arithmetic fragment exercised here) and `ℤ`; fallible external
calls (database lookups, the OpenAI request) become `Except`-valued
inputs; JS regular-expression `test` calls on the fixed pattern tables
are abstracted as Boolean-valued match oracles, with a concrete
executable word-boundary/substring matcher used for closed instances.
-/

/-- JS `Math.round`: round half toward positive infinity. -/
def jsRound (q : ℚ) : ℤ := ⌊q + 1 / 2⌋

/-- JS `Math.max(0, Math.min(100, x))`. -/
def clamp100 (q : ℚ) : ℚ := max 0 (min 100 q)

/-- JS `x || d` for a possibly-absent number: `undefined`, `null` and `0`
are falsy, so a present value of `0` is replaced by the default. -/
def jsOrNum (v : Option ℚ) (d : ℚ) : ℚ :=
  match v with
  | none => d
  | some x => if x = 0 then d else x

/-- JS `x || d` for a possibly-absent string: the empty string is falsy. -/
def jsOrStr (v : Option String) (d : String) : String :=
  match v with
  | none => d
  | some s => if s = "" then d else s

/-- JS `s.toLowerCase()` on the ASCII strings this codebase handles,
implemented character-wise so that closed instances evaluate. -/
def jsToLower (s : String) : String := ⟨s.data.map Char.toLower⟩

/-- Worker for `splitOnChar`: splits the remaining characters at every
occurrence of `sep`, `acc` holding the current segment reversed. -/
def splitOnCharAux (sep : Char) : List Char → List Char → List String
  | [], acc => [⟨acc.reverse⟩]
  | c :: cs, acc =>
    if c == sep then ⟨acc.reverse⟩ :: splitOnCharAux sep cs []
    else splitOnCharAux sep cs (c :: acc)

/-- JS `s.split(sep)` for a single-character separator. -/
def splitOnChar (sep : Char) (s : String) : List String := splitOnCharAux sep s.data []

/-- Worker for `jsDedup`, carrying the set of strings already seen. -/
def jsDedupAux (seen : List String) : List String → List String
  | [] => []
  | x :: xs => if seen.contains x then jsDedupAux seen xs else x :: jsDedupAux (x :: seen) xs

/-- JS `[...new Set(l)]` / Mongo `$addToSet`: duplicates removed keeping
the first occurrence of each element. -/
def jsDedup (l : List String) : List String := jsDedupAux [] l

/-- JS `haystack.includes(needle)`: substring occurrence test. -/
def strIncludes (haystack needle : String) : Bool :=
  let h := haystack.toList
  let n := needle.toList
  (List.range (h.length + 1)).any (fun i => (h.drop i).take n.length == n)

/-- A character counted as a word character by the JS regex `\b` boundary. -/
def isWordChar (c : Char) : Bool := c.isAlphanum || c == '_'

/-- Whether `w` occurs in `s` starting at index `i` with `\b` boundaries
on both sides (JS `new RegExp("\\b" + w + "\\b")` semantics for a plain
word `w`). -/
def wordMatchAt (w s : List Char) (i : Nat) : Bool :=
  ((s.drop i).take w.length == w) &&
    (i == 0 || !isWordChar (s.getD (i - 1) ' ')) &&
    (s.length ≤ i + w.length || !isWordChar (s.getD (i + w.length) ' '))

/-- JS `new RegExp("\\b" + w + "\\b", "gi").test(s)` for a plain
lower-case word `w` against an already lower-cased text `s`. -/
def wordBoundaryTest (w s : String) : Bool :=
  let wc := w.toList
  let sc := s.toList
  (List.range (sc.length + 1)).any (fun i => wordMatchAt wc sc i)

namespace KeywordFilter

/-- Clickbait phrase patterns from `keywordFilter.js` (regex sources). -/
def CLICKBAIT_PATTERNS : List String :=
  ["you won\x27t believe", "you won\x27t believe what", "what happened next",
   "this is why", "the reason is", "will blow your mind", "will shock you",
   "number \\d+ will", "one weird trick", "doctors hate",
   "scientists are baffled", "this simple trick", "you need to see",
   "goes viral", "the internet is", "everyone is talking about",
   "you\x27re doing it wrong", "what they don\x27t want you to know",
   "the truth about", "exposed", "you\x27ll never guess",
   "this changes everything", "mind-blowing", "jaw-dropping"]

/-- Sensational single words from `keywordFilter.js`. -/
def SENSATIONAL_WORDS : List String :=
  ["shocking", "explosive", "bombshell", "devastating", "horrifying",
   "terrifying", "outrageous", "insane", "crazy", "unbelievable",
   "incredible", "amazing", "stunning", "breaking", "urgent", "emergency",
   "crisis", "disaster", "catastrophe", "scandal", "chaos", "rage", "fury",
   "slams", "destroys", "obliterates", "annihilates", "epic", "massive",
   "huge", "brutal"]

/-- Quality-indicator phrases from `keywordFilter.js`. -/
def QUALITY_INDICATORS : List String :=
  ["according to", "research shows", "study finds", "data indicates",
   "experts say", "report states", "analysis reveals", "evidence suggests",
   "officials confirm", "sources report"]

/-- Abstraction of the JS `RegExp.test` calls made by `analyzeKeywords`:
`testPattern p t` is `new RegExp(p, "gi").test(t)` for a clickbait
pattern source `p`, and `testWord w t` is
`new RegExp("\\b" + w + "\\b", "gi").test(t)` for a sensational word `w`
(each regex object is fresh per call, so the calls are pure). -/
structure MatchOracle where
  testPattern : String → String → Bool
  testWord : String → String → Bool

/-- Input record `{title, description, content}`; each field may be
absent (JS applies `|| ''`). -/
structure ArticleInput where
  title : Option String
  description : Option String
  content : Option String
deriving DecidableEq, Repr

/-- Result of `analyzeKeywords` (the nested `details` object is kept as
three flat count fields). -/
structure KeywordResults where
  passed : Bool
  score : ℤ
  flaggedKeywords : List String
  clickbaitScore : ℤ
  sensationalismScore : ℤ
  qualityIndicators : List String
  detailsClickbaitMatches : Nat
  detailsSensationalMatches : Nat
  detailsQualityMatches : Nat
deriving DecidableEq, Repr

/-- `analyzeKeywords` from `keywordFilter.js`, parameterised by the
regex oracle `M`. -/
def analyzeKeywords (M : MatchOracle) (article : ArticleInput) : KeywordResults :=
  let title := jsToLower (article.title.getD "")
  let description := jsToLower (article.description.getD "")
  let content := jsToLower (article.content.getD "")
  let titleText := title
  let fullText := title ++ " " ++ description ++ " " ++ content
  let clickbaitMatches := CLICKBAIT_PATTERNS.filter (fun p => M.testPattern p titleText)
  let sensationalMatches := SENSATIONAL_WORDS.flatMap (fun w =>
    if M.testWord w titleText then [w, w]
    else if M.testWord w fullText then [w] else [])
  let qualityMatches := QUALITY_INDICATORS.filter (fun i => strIncludes fullText (jsToLower i))
  let clickbaitScore : ℚ := min 100 ((clickbaitMatches.length : ℚ) * 30)
  let sensationalismScore : ℚ := min 100 ((sensationalMatches.length : ℚ) * 15)
  let qualityBonus : ℚ := min 30 ((qualityMatches.length : ℚ) * 10)
  let score : ℚ := clamp100 (100 - ((clickbaitScore + sensationalismScore) / 2) + qualityBonus)
  { passed := decide (50 ≤ score)
    score := jsRound score
    flaggedKeywords := jsDedup (clickbaitMatches ++ sensationalMatches)
    clickbaitScore := jsRound clickbaitScore
    sensationalismScore := jsRound sensationalismScore
    qualityIndicators := qualityMatches
    detailsClickbaitMatches := clickbaitMatches.length
    detailsSensationalMatches := sensationalMatches.length
    detailsQualityMatches := qualityMatches.length }

/-- Concrete oracle: word-boundary matching implemented literally, and
plain substring occurrence for the clickbait patterns (which agrees with
the JS regexes on the literal-only patterns exercised by the closed
instances below). -/
def jsOracle : MatchOracle where
  testPattern := fun p t => strIncludes t p
  testWord := fun w t => wordBoundaryTest w t

end KeywordFilter

namespace AiAnalyzer

open KeywordFilter (ArticleInput)

/-- Quality-indicator phrases from `analyzeWithHeuristics`. -/
def qualityPatterns : List String :=
  ["according to", "research shows", "study finds", "data indicates",
   "experts say", "officials confirm", "report states", "analysis"]

/-- Opinion-cue phrases from `analyzeWithHeuristics`. -/
def opinionPatterns : List String :=
  ["i think", "i believe", "in my opinion", "arguably", "seems like",
   "opinion:", "editorial:", "commentary:", "perspective:"]

/-- Sensational indicators from `analyzeWithHeuristics`. -/
def sensationalPatterns : List String :=
  ["shocking", "breaking", "urgent", "explosive", "bombshell",
   "you won\x27t believe", "unbelievable", "incredible"]

/-- Positive sentiment lexicon from `analyzeWithHeuristics`. -/
def positiveWords : List String :=
  ["success", "win", "good", "great", "positive", "growth", "improve"]

/-- Negative sentiment lexicon from `analyzeWithHeuristics`. -/
def negativeWords : List String :=
  ["fail", "loss", "bad", "crisis", "disaster", "decline", "problem"]

/-- Number of entries of `pats` occurring as substrings of `text`
(the `patterns.filter(p => fullText.includes(p)).length` idiom). -/
def countIncluded (pats : List String) (text : String) : Nat :=
  (pats.filter (fun p => strIncludes text p)).length

/-- The lower-cased `fullText` assembled by `analyzeWithHeuristics`. -/
def heuristicFullText (article : ArticleInput) : String :=
  jsToLower (article.title.getD "") ++ " " ++ jsToLower (article.description.getD "")
    ++ " " ++ jsToLower (article.content.getD "")

/-- Result record of the AI analyzer (`analyzedAt`, a wall-clock `Date`,
is not modelled). -/
structure AiResult where
  qualityScore : ℚ
  biasScore : ℚ
  credibilityScore : ℚ
  sentiment : String
  isOpinion : Bool
  isFactual : Bool
  model : String
deriving DecidableEq, Repr

/-- `analyzeWithHeuristics` from `aiAnalyzer.js`. -/
def analyzeWithHeuristics (article : ArticleInput) : AiResult :=
  let content := jsToLower (article.content.getD "")
  let fullText := heuristicFullText article
  let qualityMatches := countIncluded qualityPatterns fullText
  let opinionMatches := countIncluded opinionPatterns fullText
  let sensationalMatches := countIncluded sensationalPatterns fullText
  let positiveCount := countIncluded positiveWords fullText
  let negativeCount := countIncluded negativeWords fullText
  let qualityScore : ℚ := 60 + (qualityMatches : ℚ) * 5 - (sensationalMatches : ℚ) * 10
    - (opinionMatches : ℚ) * 5 + (if 500 < content.length then 5 else 0)
    + (if 1000 < content.length then 5 else 0)
  let credibilityScore : ℚ := min 100 (max 0 (qualityScore + (qualityMatches : ℚ) * 3))
  let sentimentAfterPositive := if negativeCount + 2 < positiveCount then "positive" else "neutral"
  let sentiment := if positiveCount + 2 < negativeCount then "negative" else sentimentAfterPositive
  { qualityScore := max 0 (min 100 qualityScore)
    biasScore := 0
    credibilityScore := max 0 (min 100 credibilityScore)
    sentiment := sentiment
    isOpinion := decide (0 < opinionMatches)
    isFactual := decide (opinionMatches = 0 ∧ sensationalMatches < 2)
    model := "heuristic-v1" }

/-- The JSON object parsed out of a successful OpenAI response; fields
may be absent or falsy, which the caller defaults via `||`. -/
structure AiRaw where
  qualityScore : Option ℚ
  biasScore : Option ℚ
  credibilityScore : Option ℚ
  sentiment : Option String
  isOpinion : Bool
  isFactual : Option Bool
deriving DecidableEq, Repr

/-- `analyzeWithAI` from `aiAnalyzer.js`: `openaiAvailable` models the
module-level `openai` client being non-null, and `response` models the
combined outcome of the API call plus `JSON.parse` (an exception in
either falls to the heuristic path). -/
def analyzeWithAI (openaiAvailable : Bool) (response : Except Unit AiRaw)
    (article : ArticleInput) : AiResult :=
  if !openaiAvailable then analyzeWithHeuristics article
  else
    match response with
    | .error _ => analyzeWithHeuristics article
    | .ok analysis =>
      { qualityScore := max 0 (min 100 (jsOrNum analysis.qualityScore 50))
        biasScore := max (-100) (min 100 (jsOrNum analysis.biasScore 0))
        credibilityScore := max 0 (min 100 (jsOrNum analysis.credibilityScore 50))
        sentiment := jsOrStr analysis.sentiment "unknown"
        isOpinion := analysis.isOpinion
        isFactual := !(analysis.isFactual == some false)
        model := "gpt-3.5-turbo" }

end AiAnalyzer

namespace SourceModel

/-- The `credibilityRating` subdocument of the `Source` schema
(`lastUpdated`, a wall-clock `Date`, is not modelled). -/
structure CredibilityRating where
  overallScore : ℚ
  biasRating : String
  factualReporting : String
  source : String
deriving DecidableEq, Repr

/-- A curated rating entry of `DEFAULT_RATINGS` in `Source.js`. -/
structure CuratedRating where
  overallScore : ℚ
  biasRating : String
  factualReporting : String
deriving DecidableEq, Repr

/-- A `Source` document; the schema fields not read or written by
`getOrCreateSource` (url, domain, isEnabled, fetchFrequency, stats) are
omitted. -/
structure Source where
  name : String
  credibilityRating : CredibilityRating
deriving DecidableEq, Repr

/-- The static curated table `SourceSchema.statics.DEFAULT_RATINGS`. -/
def DEFAULT_RATINGS : List (String × CuratedRating) :=
  [("Reuters", ⟨95, "center", "very-high"⟩),
   ("Associated Press", ⟨95, "center", "very-high"⟩),
   ("BBC News", ⟨90, "center-left", "high"⟩),
   ("BBC", ⟨90, "center-left", "high"⟩),
   ("NPR", ⟨88, "center-left", "high"⟩),
   ("PBS", ⟨88, "center", "high"⟩),
   ("The Guardian", ⟨85, "left", "high"⟩),
   ("The New York Times", ⟨85, "center-left", "high"⟩),
   ("The Washington Post", ⟨85, "center-left", "high"⟩),
   ("Wall Street Journal", ⟨85, "center-right", "high"⟩),
   ("The Economist", ⟨88, "center", "high"⟩),
   ("Financial Times", ⟨88, "center", "high"⟩),
   ("Bloomberg", ⟨85, "center", "high"⟩),
   ("Al Jazeera English", ⟨75, "center-left", "mixed"⟩),
   ("CNN", ⟨70, "left", "mixed"⟩),
   ("Fox News", ⟨55, "right", "mixed"⟩),
   ("MSNBC", ⟨60, "left", "mixed"⟩),
   ("Breitbart News", ⟨35, "right", "low"⟩),
   ("The Daily Mail", ⟨45, "right", "low"⟩),
   ("BuzzFeed News", ⟨65, "left", "mixed"⟩),
   ("Vice News", ⟨70, "left", "high"⟩),
   ("ABC News", ⟨80, "center-left", "high"⟩),
   ("CBS News", ⟨80, "center-left", "high"⟩),
   ("NBC News", ⟨78, "center-left", "high"⟩),
   ("USA Today", ⟨75, "center-left", "high"⟩),
   ("Time", ⟨80, "center-left", "high"⟩),
   ("Newsweek", ⟨70, "center-left", "mixed"⟩),
   ("The Hill", ⟨75, "center", "high"⟩),
   ("Politico", ⟨78, "center-left", "high"⟩),
   ("The Atlantic", ⟨82, "center-left", "high"⟩),
   ("Axios", ⟨82, "center", "high"⟩),
   ("Business Insider", ⟨72, "center-left", "high"⟩),
   ("TechCrunch", ⟨75, "center-left", "high"⟩),
   ("Wired", ⟨78, "center-left", "high"⟩),
   ("Ars Technica", ⟨80, "center", "high"⟩),
   ("The Verge", ⟨75, "center-left", "high"⟩),
   ("Engadget", ⟨75, "center", "high"⟩)]

/-- The curated-table lookup `this.DEFAULT_RATINGS[sourceName]`. -/
def curatedLookup (sourceName : String) : Option CuratedRating :=
  (DEFAULT_RATINGS.find? (fun r => r.1 == sourceName)).map (fun r => r.2)

/-- `SourceSchema.statics.getOrCreateSource`: the database collection is
modelled as a list of documents in insertion order; `findOne` is `find?`
and `create` appends. Returns the found-or-created document together
with the resulting collection state. -/
def getOrCreateSource (db : List Source) (sourceName : String) : Source × List Source :=
  match db.find? (fun s => s.name == sourceName) with
  | some s => (s, db)
  | none =>
    let defaultRating := (curatedLookup sourceName).getD ⟨50, "unknown", "unknown"⟩
    let created : Source :=
      { name := sourceName
        credibilityRating :=
          { overallScore := defaultRating.overallScore
            biasRating := defaultRating.biasRating
            factualReporting := defaultRating.factualReporting
            source := if (curatedLookup sourceName).isSome then "curated" else "default" } }
    (created, db ++ [created])

end SourceModel

namespace FilterPipeline

open KeywordFilter (ArticleInput MatchOracle analyzeKeywords)
open AiAnalyzer (AiRaw AiResult analyzeWithAI)

/-- Result shape of `getSourceCredibility` in `credibilityService.js`. -/
structure CredibilityResult where
  sourceRating : ℚ
  biasRating : String
  factualReporting : String
  overallScore : ℚ
  ratingSource : String
deriving DecidableEq, Repr

/-- `getSourceCredibility`: the `Source.getOrCreateSource` database call
is modelled by its outcome `lookupResult`; any storage error yields the
hard-coded neutral default. -/
def getSourceCredibility (lookupResult : Except Unit SourceModel.Source) : CredibilityResult :=
  match lookupResult with
  | .ok s =>
    { sourceRating := s.credibilityRating.overallScore
      biasRating := s.credibilityRating.biasRating
      factualReporting := s.credibilityRating.factualReporting
      overallScore := s.credibilityRating.overallScore
      ratingSource := s.credibilityRating.source }
  | .error _ =>
    { sourceRating := 50
      biasRating := "unknown"
      factualReporting := "unknown"
      overallScore := 50
      ratingSource := "default" }

/-- The `WEIGHTS` table of `filterPipeline.js`, in object-key order. -/
def WEIGHTS : List (String × ℚ) :=
  [("keyword", 0.20), ("credibility", 0.30), ("aiQuality", 0.25),
   ("aiCredibility", 0.10), ("engagement", 0.15)]

/-- `PASSING_THRESHOLD` from `filterPipeline.js`. -/
def PASSING_THRESHOLD : ℤ := 60

/-- The `keywordFilter` layer stored in `filteringMetadata`. -/
structure KeywordLayer where
  passed : Bool
  flaggedKeywords : List String
  clickbaitScore : ℚ
  sensationalismScore : ℚ
  score : ℚ
deriving DecidableEq, Repr

/-- The `credibility` layer stored in `filteringMetadata`. -/
structure CredibilityLayer where
  sourceRating : ℚ
  biasRating : String
  factualReporting : String
  overallScore : ℚ
deriving DecidableEq, Repr

/-- The `aiAnalysis` layer stored in `filteringMetadata` (`analyzedAt`
omitted as in `AiResult`). -/
structure AiLayer where
  qualityScore : ℚ
  biasScore : ℚ
  credibilityScore : ℚ
  sentiment : String
  isOpinion : Bool
  isFactual : Bool
  model : String
deriving DecidableEq, Repr

/-- The `filteringMetadata` layers read by `calculateOverallScore`; each
layer object may be absent (`metadata.layer?.field`). -/
structure FilteringMetadata where
  keywordFilter : Option KeywordLayer
  credibility : Option CredibilityLayer
  aiAnalysis : Option AiLayer
deriving DecidableEq, Repr

/-- `calculateOverallScore` from `filterPipeline.js`.  The `scores`
object always holds a number for each of the five keys (absent layers
and zero scores default to 50 via `||`), so the loop guard
`scores[layer] !== undefined && scores[layer] !== null` always passes;
the dead `normalizedScore` computation is not modelled. -/
def calculateOverallScore (metadata : FilteringMetadata) : ℤ :=
  let scores : String → Option ℚ := fun layer =>
    if layer == "keyword" then some (jsOrNum (metadata.keywordFilter.map (fun k => k.score)) 50)
    else if layer == "credibility" then
      some (jsOrNum (metadata.credibility.map (fun c => c.overallScore)) 50)
    else if layer == "aiQuality" then
      some (jsOrNum (metadata.aiAnalysis.map (fun a => a.qualityScore)) 50)
    else if layer == "aiCredibility" then
      some (jsOrNum (metadata.aiAnalysis.map (fun a => a.credibilityScore)) 50)
    else if layer == "engagement" then some 50
    else none
  let totalScore := WEIGHTS.foldl (fun acc lw =>
    match scores lw.1 with
    | some v => acc + v * lw.2
    | none => acc) 0
  jsRound (clamp100 totalScore)

/-- The article state produced by `processArticle` (the category
assignment, a database aggregation over `Category` documents, is an
external collaborator and is not modelled). -/
structure ProcessedArticle where
  keywordFilter : KeywordLayer
  credibility : CredibilityLayer
  aiAnalysis : AiLayer
  overallScore : ℤ
  isPassing : Bool
  filterVersion : String
  curationStatus : String
deriving DecidableEq, Repr

/-- `processArticle` from `filterPipeline.js`: runs the three layers,
stores their metadata, computes the overall score and the curation
status.  `credLookup` models the outcome of the `Source` database call
inside `getSourceCredibility`; `openaiAvailable` and `aiResponse` model
the AI layer's external call as in `analyzeWithAI`. -/
def processArticle (M : MatchOracle) (article : ArticleInput)
    (credLookup : Except Unit SourceModel.Source)
    (openaiAvailable : Bool) (aiResponse : Except Unit AiRaw) : ProcessedArticle :=
  let keywordResults := analyzeKeywords M article
  let credibilityResults := getSourceCredibility credLookup
  let aiResults := analyzeWithAI openaiAvailable aiResponse article
  let kw : KeywordLayer :=
    { passed := keywordResults.passed
      flaggedKeywords := keywordResults.flaggedKeywords
      clickbaitScore := (keywordResults.clickbaitScore : ℚ)
      sensationalismScore := (keywordResults.sensationalismScore : ℚ)
      score := (keywordResults.score : ℚ) }
  let cred : CredibilityLayer :=
    { sourceRating := credibilityResults.sourceRating
      biasRating := credibilityResults.biasRating
      factualReporting := credibilityResults.factualReporting
      overallScore := credibilityResults.overallScore }
  let ai : AiLayer :=
    { qualityScore := aiResults.qualityScore
      biasScore := aiResults.biasScore
      credibilityScore := aiResults.credibilityScore
      sentiment := aiResults.sentiment
      isOpinion := aiResults.isOpinion
      isFactual := aiResults.isFactual
      model := aiResults.model }
  let overallScore := calculateOverallScore ⟨some kw, some cred, some ai⟩
  { keywordFilter := kw
    credibility := cred
    aiAnalysis := ai
    overallScore := overallScore
    isPassing := decide (PASSING_THRESHOLD ≤ overallScore)
    filterVersion := "1.0"
    curationStatus :=
      if 70 ≤ overallScore then "approved"
      else if overallScore < 40 then "rejected"
      else "pending" }

end FilterPipeline

namespace FactChecker

/-- Regex sources of `MISINFORMATION_PATTERNS.fabricated` in
`factChecker.js`. -/
def fabricatedPatterns : List String :=
  ["breaking\\s*:?\\s*\\d+\\s*(dead|killed|injured)",
   "exposed\\s*:?\\s*(secret|hidden|truth)",
   "they\\s+don\x27?t\\s+want\\s+you\\s+to\\s+know"]

/-- Regex sources of `MISINFORMATION_PATTERNS.clickbait`. -/
def clickbaitPatterns : List String :=
  ["you\\s+won\x27?t\\s+believe", "what\\s+happened\\s+next",
   "shocking\\s+(truth|revelation|secret)", "\\d+\\s+reasons?\\s+why"]

/-- Regex sources of `MISINFORMATION_PATTERNS.emotional_manipulation`. -/
def emotionalManipulationPatterns : List String :=
  ["(outrage|outraged|furious|anger|angry)\\s+over", "slam(s|med)?\\s+",
   "destroy(s|ed)?\\s+", "epic(ally)?\\s+(fail|burn|destroy)"]

/-- Regex sources of `MISINFORMATION_PATTERNS.out_of_context`. -/
def outOfContextPatterns : List String :=
  ["old\\s+(video|photo|image|news)", "resurfaced\\s+(video|photo|clip)"]

/-- Abstraction of the case-insensitive JS `pattern.test(fullText)`
calls over the fixed misinformation pattern table: `test p t` is the
Boolean result of testing the regex with source `p` against `t`. -/
structure RegexSemantics where
  test : String → String → Bool

/-- Result of `analyzeForMisinformation`. -/
structure MisinfoAnalysis where
  type : String
  flags : List String
  riskScore : ℤ
deriving DecidableEq, Repr

/-- The loop body shared by the four pattern-family scans in
`analyzeForMisinformation`: on a match, append `flag` and add `points`
to the risk score. -/
def flagStep (R : RegexSemantics) (fullText flag : String) (points : ℤ)
    (a : MisinfoAnalysis) (p : String) : MisinfoAnalysis :=
  if R.test p fullText then
    { a with flags := a.flags ++ [flag], riskScore := a.riskScore + points }
  else a

/-- `analyzeForMisinformation` from `factChecker.js` over the regex
semantics `R`; `content` may be absent (`${content || ''}`). -/
def analyzeForMisinformation (R : RegexSemantics) (title : String)
    (content : Option String) : MisinfoAnalysis :=
  let fullText := title ++ " " ++ content.getD ""
  let a0 : MisinfoAnalysis := { type := "none", flags := [], riskScore := 0 }
  let a1 := fabricatedPatterns.foldl (flagStep R fullText "fabricated_pattern" 30) a0
  let a2 := clickbaitPatterns.foldl (flagStep R fullText "clickbait" 15) a1
  let a3 := emotionalManipulationPatterns.foldl
    (flagStep R fullText "emotional_manipulation" 10) a2
  let a4 := outOfContextPatterns.foldl (flagStep R fullText "possibly_old_content" 20) a3
  { a4 with type :=
      if a4.flags.contains "fabricated_pattern" then "fabricated"
      else if a4.flags.contains "possibly_old_content" then "out_of_context"
      else if a4.flags.contains "clickbait" then "misleading_headline"
      else a4.type }

/-- An evidence item as built by `crossReferenceWithSources` and read by
`calculateVerificationConfidence` (`excerpt` omitted: never read by the
combiner). -/
structure Evidence where
  src : String
  url : String
  supports : Bool
  credibilityScore : Option ℚ
deriving DecidableEq, Repr

/-- A fact-check entry; only `normalizedRating` is read by the
combiner. -/
structure FactCheck where
  normalizedRating : String
deriving DecidableEq, Repr

/-- Status/confidence pair returned by the combiner. -/
structure VerificationResult where
  status : String
  confidence : ℤ
deriving DecidableEq, Repr

/-- `calculateVerificationConfidence` from `factChecker.js` (the
`totalCredibility` accumulator is computed by the source but never used,
and is not modelled). -/
def calculateVerificationConfidence (evidence : List Evidence)
    (factChecks : List FactCheck) : VerificationResult :=
  if evidence.length = 0 ∧ factChecks.length = 0 then
    { status := "unverified", confidence := 0 }
  else
    let factCheckWeight := 3
    let supportingCount := evidence.countP (fun e => e.supports)
      + factCheckWeight * factChecks.countP
          (fun fc => ["true", "mostly_true"].contains fc.normalizedRating)
    let contradictingCount := evidence.countP (fun e => !e.supports)
      + factCheckWeight * factChecks.countP
          (fun fc => ["false", "mostly_false", "pants_on_fire"].contains fc.normalizedRating)
    let total := supportingCount + contradictingCount
    if total = 0 then { status := "unverified", confidence := 0 }
    else
      let supportRatio : ℚ := (supportingCount : ℚ) / (total : ℚ)
      let status :=
        if 0.8 ≤ supportRatio then "verified_true"
        else if 0.6 ≤ supportRatio then "partially_true"
        else if 0.4 ≤ supportRatio then "misleading"
        else "verified_false"
      { status := status, confidence := jsRound (|supportRatio - 0.5| * 2 * 100) }

/-- The weighted supporting count of the combiner: evidence items with
`supports = true` plus three per fact-check rated true or mostly_true
(factCheckWeight = 3). -/
def supportingTotal (evidence : List Evidence) (factChecks : List FactCheck) : Nat :=
  evidence.countP (fun e => e.supports)
    + 3 * factChecks.countP (fun fc => ["true", "mostly_true"].contains fc.normalizedRating)

/-- The weighted contradicting count of the combiner: evidence items
with `supports = false` plus three per fact-check rated false,
mostly_false or pants_on_fire. -/
def contradictingTotal (evidence : List Evidence) (factChecks : List FactCheck) : Nat :=
  evidence.countP (fun e => !e.supports)
    + 3 * factChecks.countP
        (fun fc => ["false", "mostly_false", "pants_on_fire"].contains fc.normalizedRating)

/-- The pure core of `verifyViralNews` in `factChecker.js`: given the
story's flattened claim evidence, its fact-checks, and its title and
summary, compute the combiner result, run the misinformation analysis,
and apply the `riskScore > 50` downgrade before the final status and
confidence are persisted.  (Claim extraction and per-claim evidence
gathering are database-bound and feed in through `evidence`.) -/
def verifyCore (R : RegexSemantics) (title : String) (summary : Option String)
    (evidence : List Evidence) (factChecks : List FactCheck) : VerificationResult :=
  let misinfoAnalysis := analyzeForMisinformation R title summary
  let vc := calculateVerificationConfidence evidence factChecks
  if 50 < misinfoAnalysis.riskScore then
    { status :=
        if vc.status == "verified_true" then "partially_true"
        else if vc.status == "partially_true" then "misleading"
        else vc.status
      confidence := max 0 (vc.confidence - misinfoAnalysis.riskScore) }
  else
    { status := vc.status, confidence := vc.confidence }

end FactChecker

namespace ViralDetector

/-- An article as projected by the `detectViralStories` aggregation
(`id`, `title`, `source`, `url`, `publishedAt`,
`filteringMetadata.overallScore`). -/
structure VArticle where
  id : Nat
  title : String
  src : String
  url : String
  publishedAt : ℤ
  score : ℚ
deriving DecidableEq, Repr

/-- A `ViralNews` document as created by `detectViralStories`
(verification fields start at their schema defaults and are omitted). -/
structure ViralStory where
  title : String
  keywords : List String
  viralityScore : ℚ
  sourcesCount : Nat
  velocity : ℚ
  relatedArticles : List VArticle
deriving DecidableEq, Repr

/-- The aggregation's grouping key:
`$toLower` of the portion of the title before the first `:`. -/
def clusterKey (a : VArticle) : String :=
  jsToLower ((splitOnChar ':' a.title).headD "")

/-- The `$group` stage: one cluster per distinct key, members in input
order.  (The aggregation's output order is unspecified; first-occurrence
order is the instantiation used here, and the sort stage below orders by
count regardless.) -/
def clustersOf (articles : List VArticle) : List (String × List VArticle) :=
  (jsDedup (articles.map clusterKey)).map
    (fun k => (k, articles.filter (fun a => clusterKey a == k)))

/-- Insertion step of the `$sort: { count: -1 }` stage. -/
def insertByCount (c : String × List VArticle) :
    List (String × List VArticle) → List (String × List VArticle)
  | [] => [c]
  | d :: ds => if d.2.length < c.2.length then c :: d :: ds else d :: insertByCount c ds

/-- The `$sort: { count: -1 }` stage (descending by member count). -/
def sortByCountDesc (l : List (String × List VArticle)) : List (String × List VArticle) :=
  l.foldr insertByCount []

/-- The aggregation pipeline after grouping: keep clusters with
`count >= 3`, sort by count descending, limit 20. -/
def viralClusters (articles : List VArticle) : List (String × List VArticle) :=
  (sortByCountDesc ((clustersOf articles).filter (fun c => 3 ≤ c.2.length))).take 20

/-- The significant tokens of a cluster key:
`cluster._id.split(' ').filter(w => w.length > 3)`. -/
def sigKeywords (key : String) : List String :=
  (splitOnChar ' ' key).filter (fun w => 3 < w.length)

/-- The `$avg` of the members' overall scores. -/
def avgScore (members : List VArticle) : ℚ :=
  if members.length = 0 then 0 else (members.map (fun a => a.score)).sum / (members.length : ℚ)

/-- Construction of the new `ViralNews` document for a cluster. -/
def mkViralStory (c : String × List VArticle) : ViralStory :=
  { title := (c.2.headD ⟨0, "", "", "", 0, 0⟩).title
    keywords := sigKeywords c.1
    viralityScore := min 100 ((c.2.length : ℚ) * 10 + avgScore c.2 * 0.5)
    sourcesCount := (jsDedup (c.2.map (fun a => a.src))).length
    velocity := (c.2.length : ℚ) / 24
    relatedArticles := c.2 }

/-- The creation loop of `detectViralStories`: for each cluster, skip it
if any story already in the collection (including stories created
earlier in the same run, which `ViralNews.findOne` sees) shares a
keyword with the cluster's significant tokens; otherwise create and save
a new story. -/
def detectLoop (stories : List ViralStory) :
    List (String × List VArticle) → List ViralStory
  | [] => []
  | c :: rest =>
    let kws := sigKeywords c.1
    if stories.any (fun s => s.keywords.any (fun k => kws.contains k)) then
      detectLoop stories rest
    else
      let vn := mkViralStory c
      vn :: detectLoop (stories ++ [vn]) rest

/-- `detectViralStories` from `factChecker.js`: `existing` is the
`ViralNews` collection state at the start of the run, `articles` the
active articles of the last 24 hours (the `$match` window filter is the
caller's input here).  Returns the newly created stories. -/
def detectViralStories (existing : List ViralStory) (articles : List VArticle) :
    List ViralStory :=
  detectLoop existing (viralClusters articles)

end ViralDetector

/-! Helper lemmas shared by the claim theorems. -/

lemma jsRound_nonneg {q : ℚ} (h : 0 ≤ q) : 0 ≤ jsRound q := by
  rw [jsRound, Int.le_floor]
  push_cast
  linarith

lemma jsRound_le_100 {q : ℚ} (h : q ≤ 100) : jsRound q ≤ 100 := by
  have : jsRound q < 101 := by
    rw [jsRound, Int.floor_lt]
    push_cast
    linarith

  omega

lemma clamp100_nonneg (q : ℚ) : 0 ≤ clamp100 q := le_max_left 0 _

lemma clamp100_le (q : ℚ) : clamp100 q ≤ 100 :=
  max_le (by norm_num) (min_le_left 100 q)

lemma clamp100_comm (q : ℚ) : clamp100 q = min 100 (max 0 q) := by
  rw [clamp100, max_min_distrib_left]
  norm_num

namespace SourceModel

/-- C8: `getOrCreateSource` is idempotent.  For a name absent from the
collection, the first call appends exactly one record whose rating is
the curated entry (ratingSource `"curated"`) when the name is in
`DEFAULT_RATINGS` and the neutral default `{50, unknown, unknown}` with
ratingSource `"default"` otherwise; the second call returns the same
record and the same collection state, so no duplicate is created and
`ratingSource` is unchanged. -/
theorem getOrCreateSource_idempotent (db : List Source) (n : String)
    (h : db.find? (fun s => s.name == n) = none) :
    ((curatedLookup n = none →
        (getOrCreateSource db n).1.credibilityRating = ⟨50, "unknown", "unknown", "default"⟩)
      ∧ (∀ cr, curatedLookup n = some cr →
          (getOrCreateSource db n).1.credibilityRating
            = ⟨cr.overallScore, cr.biasRating, cr.factualReporting, "curated"⟩)
      ∧ (getOrCreateSource db n).2.length = db.length + 1
      ∧ getOrCreateSource (getOrCreateSource db n).2 n = getOrCreateSource db n) := by
  have hfirst : getOrCreateSource db n =
      (let defaultRating := (curatedLookup n).getD ⟨50, "unknown", "unknown"⟩
       let created : Source :=
         { name := n
           credibilityRating :=
             { overallScore := defaultRating.overallScore
               biasRating := defaultRating.biasRating
               factualReporting := defaultRating.factualReporting
               source := if (curatedLookup n).isSome then "curated" else "default" } }
       (created, db ++ [created])) := by
    unfold getOrCreateSource
    rw [h]
  refine ⟨?_, ?_, ?_, ?_⟩
  · intro hc
    rw [hfirst]
    simp [hc]
  · intro cr hc
    rw [hfirst]
    simp [hc]
  · rw [hfirst]
    simp
  · rw [hfirst]
    simp only []
    unfold getOrCreateSource
    rw [List.find?_append, h, Option.none_or]
    simp [List.find?_cons]

end SourceModel

/-- Witness for C8 at concrete inputs: an unknown blog name gets the
neutral default and the second call changes nothing; a curated name
(`"Reuters"`) gets its curated rating. -/
theorem getOrCreateSource_idempotent_witness :
    ((SourceModel.getOrCreateSource [] "My Blog").1.credibilityRating
        = ⟨50, "unknown", "unknown", "default"⟩)
    ∧ SourceModel.getOrCreateSource (SourceModel.getOrCreateSource [] "My Blog").2 "My Blog"
        = SourceModel.getOrCreateSource [] "My Blog"
    ∧ (SourceModel.getOrCreateSource [] "Reuters").1.credibilityRating
        = ⟨95, "center", "very-high", "curated"⟩ := by
  have h1 := SourceModel.getOrCreateSource_idempotent [] "My Blog" rfl
  have h2 := SourceModel.getOrCreateSource_idempotent [] "Reuters" rfl
  exact ⟨h1.1 (by decide), h1.2.2.2, h2.2.1 ⟨95, "center", "very-high"⟩ (by decide)⟩

namespace FactChecker

lemma calculateVerificationConfidence_eq (evidence : List Evidence)
    (factChecks : List FactCheck) :
    calculateVerificationConfidence evidence factChecks =
      (let S := supportingTotal evidence factChecks
       let C := contradictingTotal evidence factChecks
       if S + C = 0 then ⟨"unverified", 0⟩
       else
         let supportRatio : ℚ := (S : ℚ) / ((S + C : ℕ) : ℚ)
         ⟨if 0.8 ≤ supportRatio then "verified_true"
          else if 0.6 ≤ supportRatio then "partially_true"
          else if 0.4 ≤ supportRatio then "misleading"
          else "verified_false",
          jsRound (|supportRatio - 0.5| * 2 * 100)⟩) := by
  unfold calculateVerificationConfidence supportingTotal contradictingTotal
  by_cases h0 : evidence.length = 0 ∧ factChecks.length = 0
  · have he : evidence = [] := List.length_eq_zero.mp h0.1
    have hf : factChecks = [] := List.length_eq_zero.mp h0.2
    subst he
    subst hf
    simp
  · rw [if_neg h0]

end FactChecker

/-- C2: full characterisation of `calculateVerificationConfidence`.
With supporting = (evidence with supports=true) + 3·(fact-checks rated
true/mostly_true) and contradicting = (evidence with supports=false) +
3·(fact-checks rated false/mostly_false/pants_on_fire): a zero total
yields `{unverified, 0}`; otherwise the status follows the 0.8/0.6/0.4
support-ratio thresholds and confidence is `round(|ratio − 0.5|·2·100)`;
hence equal nonzero counts give confidence 0, and supporting > 0 with
contradicting = 0 gives `{verified_true, 100}`. -/
theorem calculateVerificationConfidence_spec (evidence : List FactChecker.Evidence)
    (factChecks : List FactChecker.FactCheck) :
    let S := FactChecker.supportingTotal evidence factChecks
    let C := FactChecker.contradictingTotal evidence factChecks
    let r := FactChecker.calculateVerificationConfidence evidence factChecks
    (S + C = 0 → r = ⟨"unverified", 0⟩)
    ∧ (0 < S + C →
        r.status = (if (0.8 : ℚ) ≤ (S : ℚ) / ((S + C : ℕ) : ℚ) then "verified_true"
          else if (0.6 : ℚ) ≤ (S : ℚ) / ((S + C : ℕ) : ℚ) then "partially_true"
          else if (0.4 : ℚ) ≤ (S : ℚ) / ((S + C : ℕ) : ℚ) then "misleading"
          else "verified_false")
        ∧ r.confidence = jsRound (|(S : ℚ) / ((S + C : ℕ) : ℚ) - 0.5| * 2 * 100))
    ∧ (S = C ∧ 0 < S → r.confidence = 0)
    ∧ (0 < S ∧ C = 0 → r = ⟨"verified_true", 100⟩) := by
  intro S C r
  have hr := FactChecker.calculateVerificationConfidence_eq evidence factChecks
  refine ⟨?_, ?_, ?_, ?_⟩
  · intro h
    show FactChecker.calculateVerificationConfidence evidence factChecks = _
    rw [hr]
    simp [h]
  · intro h
    have hne : ¬(S + C = 0) := Nat.pos_iff_ne_zero.mp h
    constructor
    · show (FactChecker.calculateVerificationConfidence evidence factChecks).status = _
      rw [hr]
      simp only [if_neg hne]
    · show (FactChecker.calculateVerificationConfidence evidence factChecks).confidence = _
      rw [hr]
      simp only [if_neg hne]
  · rintro ⟨hSC, hS⟩
    have hne : ¬(S + C = 0) := by omega
    show (FactChecker.calculateVerificationConfidence evidence factChecks).confidence = 0
    rw [hr]
    simp only [if_neg hne]
    have hhalf : ((S : ℚ)) / ((S + C : ℕ) : ℚ) = 1 / 2 := by
      have hS0 : (S : ℚ) ≠ 0 := by
        exact_mod_cast Nat.pos_iff_ne_zero.mp hS
      rw [← hSC]
      push_cast
      rw [div_eq_div_iff (by positivity) (by norm_num)]
      ring
    rw [hhalf]
    norm_num [jsRound]
  · rintro ⟨hS, hC⟩
    have hne : ¬(S + C = 0) := by omega
    show FactChecker.calculateVerificationConfidence evidence factChecks = _
    rw [hr]
    simp only [if_neg hne]
    have hone : ((S : ℚ)) / ((S + C : ℕ) : ℚ) = 1 := by
      have hS0 : (S : ℚ) ≠ 0 := by
        exact_mod_cast Nat.pos_iff_ne_zero.mp hS
      have htot : ((S + C : ℕ) : ℚ) = (S : ℚ) := by
        rw [hC]
        push_cast
        ring
      rw [htot, div_self hS0]
    rw [hone]
    norm_num [jsRound]
    rw [Int.floor_eq_iff]
    rw [show |(1 : ℚ) / 2| = 1 / 2 from abs_of_nonneg (by norm_num)]
    constructor <;> norm_num

/-- Witness for C2: one supporting evidence item and no fact-checks
gives supporting = 1, contradicting = 0, and the combiner returns
`{verified_true, 100}`. -/
theorem calculateVerificationConfidence_spec_witness :
    FactChecker.supportingTotal [⟨"s", "u", true, none⟩] [] = 1
    ∧ FactChecker.contradictingTotal [⟨"s", "u", true, none⟩] [] = 0
    ∧ FactChecker.calculateVerificationConfidence [⟨"s", "u", true, none⟩] []
        = ⟨"verified_true", 100⟩ := by
  refine ⟨by decide, by decide, ?_⟩
  exact (calculateVerificationConfidence_spec [⟨"s", "u", true, none⟩] []).2.2.2
    ⟨by decide, by decide⟩

/-- C7: the misinformation adjustment in `verifyViralNews`.  When the
risk score over title+summary exceeds 50, `verified_true` is downgraded
to `partially_true`, `partially_true` to `misleading`, every other
status is kept, and the final confidence is
`max 0 (combinerConfidence − riskScore)`; when the risk score is at most
50, the combiner's status and confidence are persisted unchanged. -/
theorem verifyCore_downgrade (R : FactChecker.RegexSemantics) (title : String)
    (summary : Option String) (evidence : List FactChecker.Evidence)
    (factChecks : List FactChecker.FactCheck) :
    let risk := (FactChecker.analyzeForMisinformation R title summary).riskScore
    let vc := FactChecker.calculateVerificationConfidence evidence factChecks
    let r := FactChecker.verifyCore R title summary evidence factChecks
    (50 < risk →
      (vc.status = "verified_true" → r.status = "partially_true")
      ∧ (vc.status = "partially_true" → r.status = "misleading")
      ∧ (vc.status ≠ "verified_true" ∧ vc.status ≠ "partially_true" → r.status = vc.status)
      ∧ r.confidence = max 0 (vc.confidence - risk))
    ∧ (risk ≤ 50 → r = vc) := by
  intro risk vc r
  constructor
  · intro hrisk
    have hr : r = ⟨if vc.status == "verified_true" then "partially_true"
        else if vc.status == "partially_true" then "misleading" else vc.status,
        max 0 (vc.confidence - risk)⟩ := by
      show FactChecker.verifyCore R title summary evidence factChecks = _
      simp only [FactChecker.verifyCore]
      rw [if_pos hrisk]
    refine ⟨?_, ?_, ?_, ?_⟩
    · intro hs
      rw [hr]
      simp [hs]
    · intro hs
      rw [hr]
      simp [hs]
    · rintro ⟨h1, h2⟩
      rw [hr]
      simp only []
      rw [if_neg (by simpa using h1), if_neg (by simpa using h2)]
    · rw [hr]
  · intro hrisk
    show FactChecker.verifyCore R title summary evidence factChecks = _
    simp only [FactChecker.verifyCore]
    rw [if_neg (by omega)]

namespace FactChecker

lemma cvc_single_support :
    calculateVerificationConfidence [⟨"s", "u", true, none⟩] [] = ⟨"verified_true", 100⟩ := by
  rw [calculateVerificationConfidence_eq]
  have hS : supportingTotal [⟨"s", "u", true, none⟩] [] = 1 := by decide
  have hC : contradictingTotal [⟨"s", "u", true, none⟩] [] = 0 := by decide
  simp only [hS, hC]
  norm_num [jsRound]
  rw [Int.floor_eq_iff]
  rw [show |(1 : ℚ) / 2| = 1 / 2 from abs_of_nonneg (by norm_num)]
  constructor <;> norm_num

end FactChecker

/-- Witness for C7: with an oracle on which every pattern matches, the
risk score is 230 > 50, one supporting evidence item makes the combiner
return `{verified_true, 100}`, and the final result is downgraded to
`{partially_true, 0}`. -/
theorem verifyCore_downgrade_witness :
    (FactChecker.analyzeForMisinformation ⟨fun _ _ => true⟩ "t" none).riskScore = 230
    ∧ (FactChecker.verifyCore ⟨fun _ _ => true⟩ "t" none [⟨"s", "u", true, none⟩] []).status
        = "partially_true"
    ∧ (FactChecker.verifyCore ⟨fun _ _ => true⟩ "t" none [⟨"s", "u", true, none⟩] []).confidence
        = 0 := by
  have hvc := FactChecker.cvc_single_support
  have h := (verifyCore_downgrade ⟨fun _ _ => true⟩ "t" none [⟨"s", "u", true, none⟩] []).1
    (by decide)
  refine ⟨by decide, h.1 (by rw [hvc]), ?_⟩
  rw [h.2.2.2, hvc]
  decide

namespace FactChecker

lemma calculateVerificationConfidence_status_mem (evidence : List Evidence)
    (factChecks : List FactCheck) :
    (calculateVerificationConfidence evidence factChecks).status
      ∈ ["unverified", "verified_true", "partially_true", "misleading", "verified_false"] := by
  rw [calculateVerificationConfidence_eq]
  simp only []
  split_ifs <;> simp

end FactChecker

/-- C10: a completed verifier run only ever persists one of the five
automatic statuses; the downgrade step maps within this set, so the
persisted status is never `satire`, `opinion` or `under_review`. -/
theorem verifyCore_status_invariant (R : FactChecker.RegexSemantics) (title : String)
    (summary : Option String) (evidence : List FactChecker.Evidence)
    (factChecks : List FactChecker.FactCheck) :
    (FactChecker.verifyCore R title summary evidence factChecks).status
      ∈ ["unverified", "verified_true", "partially_true", "misleading", "verified_false"] := by
  have hm := FactChecker.calculateVerificationConfidence_status_mem evidence factChecks
  by_cases h : 50 < (FactChecker.analyzeForMisinformation R title summary).riskScore
  · have hv : FactChecker.verifyCore R title summary evidence factChecks =
        ⟨if (FactChecker.calculateVerificationConfidence evidence factChecks).status
              == "verified_true" then "partially_true"
          else if (FactChecker.calculateVerificationConfidence evidence factChecks).status
              == "partially_true" then "misleading"
          else (FactChecker.calculateVerificationConfidence evidence factChecks).status,
          max 0 ((FactChecker.calculateVerificationConfidence evidence factChecks).confidence
            - (FactChecker.analyzeForMisinformation R title summary).riskScore)⟩ := by
      simp only [FactChecker.verifyCore]
      rw [if_pos h]
    rw [hv]
    simp only [List.mem_cons, List.not_mem_nil, or_false] at hm ⊢
    rcases hm with h' | h' | h' | h' | h' <;> simp [h']
  · have hv : FactChecker.verifyCore R title summary evidence factChecks =
        ⟨(FactChecker.calculateVerificationConfidence evidence factChecks).status,
          (FactChecker.calculateVerificationConfidence evidence factChecks).confidence⟩ := by
      simp only [FactChecker.verifyCore]
      rw [if_neg h]
    rw [hv]
    exact hm

namespace FactChecker

lemma foldl_flagStep (R : RegexSemantics) (fullText flag : String) (points : ℤ)
    (pats : List String) (a : MisinfoAnalysis) :
    pats.foldl (flagStep R fullText flag points) a =
      ⟨a.type,
        a.flags ++ List.replicate ((pats.filter (fun p => R.test p fullText)).length) flag,
        a.riskScore + points * ((pats.filter (fun p => R.test p fullText)).length : ℤ)⟩ := by
  induction pats generalizing a with
  | nil => simp
  | cons p ps ih =>
    rw [List.foldl_cons, ih, List.filter_cons]
    by_cases h : R.test p fullText
    · simp only [h, if_true, flagStep, if_pos h, MisinfoAnalysis.mk.injEq, true_and]
      refine ⟨?_, ?_⟩
      · rw [List.length_cons, List.replicate_succ, List.append_assoc, List.singleton_append]
      · rw [List.length_cons]
        push_cast
        ring
    · simp only [h, if_false, flagStep, if_neg h, Bool.false_eq_true]

lemma typeOfFlags (n1 n2 n3 n4 : ℕ) :
    (if (List.replicate n1 "fabricated_pattern" ++ List.replicate n2 "clickbait"
        ++ List.replicate n3 "emotional_manipulation"
        ++ List.replicate n4 "possibly_old_content").contains "fabricated_pattern"
        then "fabricated"
      else if (List.replicate n1 "fabricated_pattern" ++ List.replicate n2 "clickbait"
        ++ List.replicate n3 "emotional_manipulation"
        ++ List.replicate n4 "possibly_old_content").contains "possibly_old_content"
        then "out_of_context"
      else if (List.replicate n1 "fabricated_pattern" ++ List.replicate n2 "clickbait"
        ++ List.replicate n3 "emotional_manipulation"
        ++ List.replicate n4 "possibly_old_content").contains "clickbait"
        then "misleading_headline"
      else "none")
    = (if n1 ≠ 0 then "fabricated"
      else if n4 ≠ 0 then "out_of_context"
      else if n2 ≠ 0 then "misleading_headline"
      else "none") := by
  by_cases h1 : n1 = 0 <;> by_cases h2 : n2 = 0 <;> by_cases h4 : n4 = 0 <;>
    simp [h1, h2, h4, List.mem_replicate]

end FactChecker

/-- C9: for every title and optional content, `analyzeForMisinformation`
adds one flag per matched pattern, scores +30 per fabricated cue, +15
per clickbait cue, +10 per emotional-manipulation cue and +20 per
out-of-context cue with no clamp, assigns `type` by the fixed priority
fabricated > out_of_context > misleading_headline > none, and yields
exactly `{none, [], 0}` when no pattern matches. -/
theorem analyzeForMisinformation_spec (R : FactChecker.RegexSemantics) (title : String)
    (content : Option String) :
    let fullText := title ++ " " ++ content.getD ""
    let n1 := (FactChecker.fabricatedPatterns.filter (fun p => R.test p fullText)).length
    let n2 := (FactChecker.clickbaitPatterns.filter (fun p => R.test p fullText)).length
    let n3 := (FactChecker.emotionalManipulationPatterns.filter
        (fun p => R.test p fullText)).length
    let n4 := (FactChecker.outOfContextPatterns.filter (fun p => R.test p fullText)).length
    let r := FactChecker.analyzeForMisinformation R title content
    r.riskScore = 30 * n1 + 15 * n2 + 10 * n3 + 20 * n4
    ∧ r.flags = List.replicate n1 "fabricated_pattern" ++ List.replicate n2 "clickbait"
        ++ List.replicate n3 "emotional_manipulation"
        ++ List.replicate n4 "possibly_old_content"
    ∧ r.type = (if n1 ≠ 0 then "fabricated"
        else if n4 ≠ 0 then "out_of_context"
        else if n2 ≠ 0 then "misleading_headline"
        else "none")
    ∧ (n1 = 0 ∧ n2 = 0 ∧ n3 = 0 ∧ n4 = 0 → r = ⟨"none", [], 0⟩) := by
  intro fullText n1 n2 n3 n4 r
  have hflags : r.flags = List.replicate n1 "fabricated_pattern"
      ++ List.replicate n2 "clickbait" ++ List.replicate n3 "emotional_manipulation"
      ++ List.replicate n4 "possibly_old_content" := by
    show (FactChecker.analyzeForMisinformation R title content).flags = _
    simp only [FactChecker.analyzeForMisinformation, FactChecker.foldl_flagStep]
    simp [List.append_assoc]
  have hrisk : r.riskScore = 30 * n1 + 15 * n2 + 10 * n3 + 20 * n4 := by
    show (FactChecker.analyzeForMisinformation R title content).riskScore = _
    simp only [FactChecker.analyzeForMisinformation, FactChecker.foldl_flagStep]
    ring
  have htype : r.type = (if n1 ≠ 0 then "fabricated"
      else if n4 ≠ 0 then "out_of_context"
      else if n2 ≠ 0 then "misleading_headline"
      else "none") := by
    show (FactChecker.analyzeForMisinformation R title content).type = _
    simp only [FactChecker.analyzeForMisinformation, FactChecker.foldl_flagStep,
      List.nil_append]
    rw [FactChecker.typeOfFlags]
  refine ⟨hrisk, hflags, htype, ?_⟩
  rintro ⟨h1, h2, h3, h4⟩
  have heta : r = ⟨r.type, r.flags, r.riskScore⟩ := rfl
  rw [heta, htype, hflags, hrisk]
  simp [h1, h2, h3, h4]

lemma clamp100_eq_self {q : ℚ} (h0 : 0 ≤ q) (h1 : q ≤ 100) : clamp100 q = q := by
  rw [clamp100, min_eq_right h1, max_eq_right (le_min (by norm_num) h0 |>.trans (min_le_right 100 q))]

lemma jsRound_intCast (z : ℤ) : jsRound (z : ℚ) = z := by
  rw [jsRound, add_comm, Int.floor_add_int]
  norm_num

/-- C1 (amended): `calculateOverallScore` equals the rounded clamp of
the fixed-weight sum where each layer contributes its stored score
unless the layer is missing or its score is `0` (both falsy under the
JS `|| 50` default, so a genuine zero score is also replaced by the
neutral 50); with all-neutral layers (50,50,50,50,50) the result is
exactly 50. -/
theorem calculateOverallScore_weighted (m : FilterPipeline.FilteringMetadata) :
    FilterPipeline.calculateOverallScore m
      = jsRound (clamp100 (jsOrNum (m.keywordFilter.map (fun k => k.score)) 50 * 0.20
        + jsOrNum (m.credibility.map (fun c => c.overallScore)) 50 * 0.30
        + jsOrNum (m.aiAnalysis.map (fun a => a.qualityScore)) 50 * 0.25
        + jsOrNum (m.aiAnalysis.map (fun a => a.credibilityScore)) 50 * 0.10
        + 50 * 0.15))
    ∧ FilterPipeline.calculateOverallScore
        ⟨some ⟨true, [], 50, 50, 50⟩, some ⟨50, "unknown", "unknown", 50⟩,
          some ⟨50, 0, 50, "neutral", false, true, "heuristic-v1"⟩⟩ = 50 := by
  constructor
  · simp [FilterPipeline.calculateOverallScore, FilterPipeline.WEIGHTS]
  · have h : FilterPipeline.calculateOverallScore
        ⟨some ⟨true, [], 50, 50, 50⟩, some ⟨50, "unknown", "unknown", 50⟩,
          some ⟨50, 0, 50, "neutral", false, true, "heuristic-v1"⟩⟩
        = jsRound (clamp100 50) := by
      simp [FilterPipeline.calculateOverallScore, FilterPipeline.WEIGHTS, jsOrNum]
      norm_num
    rw [h, clamp100_eq_self (by norm_num) (by norm_num),
      show ((50 : ℚ)) = ((50 : ℤ) : ℚ) by norm_num, jsRound_intCast]

/-- Counterexample for C1 as stated: with all four layers present and a
keyword-filter score of exactly 0 (reachable, e.g. clickbait and
sensationalism both 100 with no quality bonus), the code's `|| 50`
falsy default replaces the 0 by 50, so the overall score is 50 rather
than the 40 the claimed weighted formula gives. -/
theorem calculateOverallScore_zero_counterexample :
    FilterPipeline.calculateOverallScore
        ⟨some ⟨true, [], 100, 100, 0⟩, some ⟨50, "unknown", "unknown", 50⟩,
          some ⟨50, 0, 50, "neutral", false, true, "heuristic-v1"⟩⟩
      ≠ jsRound (clamp100 ((0 : ℚ) * 0.20 + 50 * 0.30 + 50 * 0.25 + 50 * 0.10
          + 50 * 0.15)) := by
  have hL : FilterPipeline.calculateOverallScore
      ⟨some ⟨true, [], 100, 100, 0⟩, some ⟨50, "unknown", "unknown", 50⟩,
        some ⟨50, 0, 50, "neutral", false, true, "heuristic-v1"⟩⟩
      = jsRound (clamp100 50) := by
    simp [FilterPipeline.calculateOverallScore, FilterPipeline.WEIGHTS, jsOrNum]
    norm_num
  have hR : (0 : ℚ) * 0.20 + 50 * 0.30 + 50 * 0.25 + 50 * 0.10 + 50 * 0.15 = 40 := by
    norm_num
  rw [hL, hR, clamp100_eq_self (q := 50) (by norm_num) (by norm_num),
    clamp100_eq_self (q := 40) (by norm_num) (by norm_num),
    show ((50 : ℚ)) = ((50 : ℤ) : ℚ) by norm_num,
    show ((40 : ℚ)) = ((40 : ℤ) : ℚ) by norm_num, jsRound_intCast, jsRound_intCast]
  decide

lemma calculateOverallScore_bounds (m : FilterPipeline.FilteringMetadata) :
    0 ≤ FilterPipeline.calculateOverallScore m
      ∧ FilterPipeline.calculateOverallScore m ≤ 100 := by
  unfold FilterPipeline.calculateOverallScore
  exact ⟨jsRound_nonneg (clamp100_nonneg _), jsRound_le_100 (clamp100_le _)⟩

/-- C3 (amended): `processArticle` is layer-failure tolerant.  When the
source-credibility lookup fails, that layer defaults to the neutral
rating (50, unknown, unknown, 50); when the AI layer is unavailable or
its call/parse fails, it falls back to the deterministic heuristic
analysis (not necessarily 50); in every case the returned article
carries a computed `overallScore` in [0, 100] — no layer failure
propagates to the caller. -/
theorem processArticle_layer_failures (M : KeywordFilter.MatchOracle)
    (article : KeywordFilter.ArticleInput) (credLookup : Except Unit SourceModel.Source)
    (openaiAvailable : Bool) (aiResponse : Except Unit AiAnalyzer.AiRaw) :
    ((FilterPipeline.processArticle M article (Except.error ()) openaiAvailable
        aiResponse).credibility = ⟨50, "unknown", "unknown", 50⟩)
    ∧ (openaiAvailable = false ∨ aiResponse = Except.error () →
        (FilterPipeline.processArticle M article credLookup openaiAvailable
            aiResponse).aiAnalysis
          = ⟨(AiAnalyzer.analyzeWithHeuristics article).qualityScore,
              (AiAnalyzer.analyzeWithHeuristics article).biasScore,
              (AiAnalyzer.analyzeWithHeuristics article).credibilityScore,
              (AiAnalyzer.analyzeWithHeuristics article).sentiment,
              (AiAnalyzer.analyzeWithHeuristics article).isOpinion,
              (AiAnalyzer.analyzeWithHeuristics article).isFactual,
              (AiAnalyzer.analyzeWithHeuristics article).model⟩)
    ∧ 0 ≤ (FilterPipeline.processArticle M article credLookup openaiAvailable
        aiResponse).overallScore
    ∧ (FilterPipeline.processArticle M article credLookup openaiAvailable
        aiResponse).overallScore ≤ 100 := by
  refine ⟨rfl, ?_, ?_, ?_⟩
  · rintro (h | h)
    · subst h
      rfl
    · subst h
      cases openaiAvailable <;> rfl
  · exact (calculateOverallScore_bounds _).1
  · exact (calculateOverallScore_bounds _).2

/-- Witness for C3 at a concrete article with both external layers
failing: the credibility layer is the neutral default, the AI layer is
the heuristic result, and the overall score is set and in range. -/
theorem processArticle_layer_failures_witness :
    ((FilterPipeline.processArticle KeywordFilter.jsOracle ⟨none, none, none⟩
        (Except.error ()) false (Except.error ())).credibility
      = ⟨50, "unknown", "unknown", 50⟩)
    ∧ (FilterPipeline.processArticle KeywordFilter.jsOracle ⟨none, none, none⟩
        (Except.error ()) false (Except.error ())).aiAnalysis
      = ⟨(AiAnalyzer.analyzeWithHeuristics ⟨none, none, none⟩).qualityScore,
          (AiAnalyzer.analyzeWithHeuristics ⟨none, none, none⟩).biasScore,
          (AiAnalyzer.analyzeWithHeuristics ⟨none, none, none⟩).credibilityScore,
          (AiAnalyzer.analyzeWithHeuristics ⟨none, none, none⟩).sentiment,
          (AiAnalyzer.analyzeWithHeuristics ⟨none, none, none⟩).isOpinion,
          (AiAnalyzer.analyzeWithHeuristics ⟨none, none, none⟩).isFactual,
          (AiAnalyzer.analyzeWithHeuristics ⟨none, none, none⟩).model⟩
    ∧ 0 ≤ (FilterPipeline.processArticle KeywordFilter.jsOracle ⟨none, none, none⟩
        (Except.error ()) false (Except.error ())).overallScore
    ∧ (FilterPipeline.processArticle KeywordFilter.jsOracle ⟨none, none, none⟩
        (Except.error ()) false (Except.error ())).overallScore ≤ 100 := by
  have h := processArticle_layer_failures KeywordFilter.jsOracle ⟨none, none, none⟩
    (Except.error ()) false (Except.error ())
  exact ⟨h.1, h.2.1 (Or.inl rfl), h.2.2.1, h.2.2.2⟩

/-- Counterexample for C3 as stated: when the AI layer fails on an
empty article, its contribution is the heuristic quality score 60, not
the neutral 50 the claim asserts for every failing layer. -/
theorem processArticle_ai_failure_counterexample :
    (FilterPipeline.processArticle KeywordFilter.jsOracle ⟨none, none, none⟩
        (Except.error ()) true (Except.error ())).aiAnalysis.qualityScore = 60
    ∧ (60 : ℚ) ≠ 50 := by
  constructor
  · show (AiAnalyzer.analyzeWithHeuristics ⟨none, none, none⟩).qualityScore = 60
    have hq : AiAnalyzer.countIncluded AiAnalyzer.qualityPatterns
        (AiAnalyzer.heuristicFullText ⟨none, none, none⟩) = 0 := by decide
    have hs : AiAnalyzer.countIncluded AiAnalyzer.sensationalPatterns
        (AiAnalyzer.heuristicFullText ⟨none, none, none⟩) = 0 := by decide
    have ho : AiAnalyzer.countIncluded AiAnalyzer.opinionPatterns
        (AiAnalyzer.heuristicFullText ⟨none, none, none⟩) = 0 := by decide
    have hlen : ((jsToLower ((none : Option String).getD "")).length) = 0 := by decide
    simp only [AiAnalyzer.analyzeWithHeuristics, hq, hs, ho, hlen]
    norm_num
  · norm_num

lemma clamp100_idem (x : ℚ) : clamp100 (clamp100 x) = clamp100 x :=
  clamp100_eq_self (clamp100_nonneg x) (clamp100_le x)

lemma clamp100_eq_of_lt {x : ℚ} (h1 : 0 < clamp100 x) (h2 : clamp100 x < 100) :
    clamp100 x = x := by
  rcases le_or_lt (min 100 x) 0 with h | h
  · rw [clamp100, max_eq_left h] at h1
    exact absurd h1 (lt_irrefl 0)
  · have hm : clamp100 x = min 100 x := max_eq_right h.le
    rcases le_or_lt 100 x with h' | h'
    · rw [hm, min_eq_left h'] at h2
      exact absurd h2 (lt_irrefl _)
    · rw [hm, min_eq_right h'.le]

namespace KeywordFilter

lemma flatMap_length_sens (M : MatchOracle) (titleText fullText : String)
    (l : List String) :
    (l.flatMap (fun w => if M.testWord w titleText then [w, w]
        else if M.testWord w fullText then [w] else [])).length
      = (l.map (fun w => if M.testWord w titleText then 2
          else if M.testWord w fullText then 1 else 0)).sum := by
  induction l with
  | nil => rfl
  | cons w l ih =>
    simp only [List.flatMap_cons, List.map_cons, List.length_append, List.sum_cons, ih]
    by_cases h1 : M.testWord w titleText
    · simp [h1]
    · by_cases h2 : M.testWord w fullText <;> simp [h1, h2]

lemma passed_iff_round (ncb ws nq : ℕ) :
    (50 ≤ clamp100 (100 - ((min 100 ((ncb : ℚ) * 30) + min 100 ((ws : ℚ) * 15)) / 2)
        + min 30 ((nq : ℚ) * 10))
      ↔ 50 ≤ jsRound (clamp100 (100 - ((min 100 ((ncb : ℚ) * 30)
        + min 100 ((ws : ℚ) * 15)) / 2) + min 30 ((nq : ℚ) * 10)))) := by
  constructor
  · intro h
    rw [jsRound, Int.le_floor]
    push_cast
    linarith
  · intro h
    by_contra hlt
    push_neg at hlt
    have h2 : (99 : ℚ) / 2 ≤ clamp100 (100 - ((min 100 ((ncb : ℚ) * 30)
        + min 100 ((ws : ℚ) * 15)) / 2) + min 30 ((nq : ℚ) * 10)) := by
      rw [jsRound, Int.le_floor] at h
      push_cast at h
      linarith
    obtain ⟨a, ha, ha20⟩ : ∃ a : ℕ, min 100 ((ncb : ℚ) * 30) = 5 * (a : ℚ) ∧ a ≤ 20 := by
      rcases le_total ((ncb : ℚ) * 30) 100 with hle | hle
      · refine ⟨6 * ncb, ?_, ?_⟩
        · rw [min_eq_right hle]
          push_cast
          ring
        · have h3 : ncb ≤ 3 := by
            by_contra hc
            push_neg at hc
            have h4 : (4 : ℚ) ≤ (ncb : ℚ) := by exact_mod_cast hc
            linarith
          omega
      · exact ⟨20, by rw [min_eq_left hle]; norm_num, le_refl 20⟩
    obtain ⟨b, hb, hb20⟩ : ∃ b : ℕ, min 100 ((ws : ℚ) * 15) = 5 * (b : ℚ) ∧ b ≤ 20 := by
      rcases le_total ((ws : ℚ) * 15) 100 with hle | hle
      · refine ⟨3 * ws, ?_, ?_⟩
        · rw [min_eq_right hle]
          push_cast
          ring
        · have h3 : ws ≤ 6 := by
            by_contra hc
            push_neg at hc
            have h4 : (7 : ℚ) ≤ (ws : ℚ) := by exact_mod_cast hc
            linarith
          omega
      · exact ⟨20, by rw [min_eq_left hle]; norm_num, le_refl 20⟩
    obtain ⟨c, hc, hc6⟩ : ∃ c : ℕ, min 30 ((nq : ℚ) * 10) = 5 * (c : ℚ) ∧ c ≤ 6 := by
      rcases le_total ((nq : ℚ) * 10) 30 with hle | hle
      · refine ⟨2 * nq, ?_, ?_⟩
        · rw [min_eq_right hle]
          push_cast
          ring
        · have h3 : nq ≤ 3 := by
            by_contra hcx
            push_neg at hcx
            have h4 : (4 : ℚ) ≤ (nq : ℚ) := by exact_mod_cast hcx
            linarith
          omega
      · exact ⟨6, by rw [min_eq_left hle]; norm_num, le_refl 6⟩
    have hraw : clamp100 (100 - ((min 100 ((ncb : ℚ) * 30) + min 100 ((ws : ℚ) * 15)) / 2)
        + min 30 ((nq : ℚ) * 10))
        = 100 - ((min 100 ((ncb : ℚ) * 30) + min 100 ((ws : ℚ) * 15)) / 2)
          + min 30 ((nq : ℚ) * 10) :=
      clamp100_eq_of_lt (by linarith) (by linarith)
    rw [hraw, ha, hb, hc] at h2 hlt
    have key : ((200 - 5 * a - 5 * b + 10 * c : ℤ) : ℚ)
        = 2 * (100 - ((5 * (a : ℚ) + 5 * (b : ℚ)) / 2) + 5 * (c : ℚ)) := by
      push_cast
      ring
    have h99 : (99 : ℤ) ≤ 200 - 5 * a - 5 * b + 10 * c := by
      have : (99 : ℚ) ≤ ((200 - 5 * a - 5 * b + 10 * c : ℤ) : ℚ) := by
        rw [key]
        linarith
      exact_mod_cast this
    have h100 : (200 - 5 * a - 5 * b + 10 * c : ℤ) < 100 := by
      have : ((200 - 5 * a - 5 * b + 10 * c : ℤ) : ℚ) < 100 := by
        rw [key]
        linarith
      exact_mod_cast this
    omega

end KeywordFilter

/-- C4 (amended): `analyzeKeywords` returns
`score = round(clamp(100 − (clickbaitScore + sensationalismScore)/2 +
qualityBonus, 0, 100))` (the source rounds the clamped value), where a
sensational word matching the title counts twice and a word matching
only the full text counts once in
`sensationalismScore = min(100, weightedCount·15)`; the returned score
lies in [0, 100], and `passed` is true exactly when the (rounded) score
is at least 50. -/
theorem analyzeKeywords_spec (M : KeywordFilter.MatchOracle)
    (article : KeywordFilter.ArticleInput) :
    let titleText := jsToLower (article.title.getD "")
    let fullText := titleText ++ " " ++ jsToLower (article.description.getD "") ++ " "
      ++ jsToLower (article.content.getD "")
    let ncb : ℕ := (KeywordFilter.CLICKBAIT_PATTERNS.filter
      (fun p => M.testPattern p titleText)).length
    let ws : ℕ := (KeywordFilter.SENSATIONAL_WORDS.map (fun w =>
      if M.testWord w titleText then 2 else if M.testWord w fullText then 1 else 0)).sum
    let nq : ℕ := (KeywordFilter.QUALITY_INDICATORS.filter
      (fun i => strIncludes fullText (jsToLower i))).length
    let r := KeywordFilter.analyzeKeywords M article
    r.score = jsRound (clamp100 (100 - ((min 100 ((ncb : ℚ) * 30)
        + min 100 ((ws : ℚ) * 15)) / 2) + min 30 ((nq : ℚ) * 10)))
    ∧ r.sensationalismScore = jsRound (min 100 ((ws : ℚ) * 15))
    ∧ 0 ≤ r.score ∧ r.score ≤ 100
    ∧ (r.passed = true ↔ 50 ≤ r.score) := by
  intro titleText fullText ncb ws nq r
  have hlen : (KeywordFilter.SENSATIONAL_WORDS.flatMap (fun w =>
      if M.testWord w titleText then [w, w]
      else if M.testWord w fullText then [w] else [])).length = ws :=
    KeywordFilter.flatMap_length_sens M titleText fullText KeywordFilter.SENSATIONAL_WORDS
  refine ⟨?_, ?_, ?_, ?_, ?_⟩
  · show (KeywordFilter.analyzeKeywords M article).score = _
    simp only [KeywordFilter.analyzeKeywords]
    rw [hlen]
  · show (KeywordFilter.analyzeKeywords M article).sensationalismScore = _
    simp only [KeywordFilter.analyzeKeywords]
    rw [hlen]
  · exact jsRound_nonneg (clamp100_nonneg _)
  · exact jsRound_le_100 (clamp100_le _)
  · show (KeywordFilter.analyzeKeywords M article).passed = true
      ↔ 50 ≤ (KeywordFilter.analyzeKeywords M article).score
    simp only [KeywordFilter.analyzeKeywords]
    rw [hlen, decide_eq_true_eq]
    exact KeywordFilter.passed_iff_round ncb ws nq

/-- C6 (amended): the heuristic ContentAnalyzer strategy returns
`qualityScore = clamp(rawQ, 0, 100)` with
`rawQ = 60 + 5·quality − 10·sensational − 5·opinion + length bonuses`,
`credibilityScore = clamp(rawQ + quality·3, 0, 100)` computed from the
unclamped running total `rawQ` (not from the clamped quality score),
`biasScore = 0`, `isOpinion = (opinion > 0)`, and
`isFactual = (opinion = 0 ∧ sensational < 2)`. -/
theorem analyzeWithHeuristics_spec (article : KeywordFilter.ArticleInput) :
    let fullText := AiAnalyzer.heuristicFullText article
    let q := AiAnalyzer.countIncluded AiAnalyzer.qualityPatterns fullText
    let s := AiAnalyzer.countIncluded AiAnalyzer.sensationalPatterns fullText
    let o := AiAnalyzer.countIncluded AiAnalyzer.opinionPatterns fullText
    let contentLen := (jsToLower (article.content.getD "")).length
    let rawQ : ℚ := 60 + (q : ℚ) * 5 - (s : ℚ) * 10 - (o : ℚ) * 5
      + (if 500 < contentLen then 5 else 0) + (if 1000 < contentLen then 5 else 0)
    let r := AiAnalyzer.analyzeWithHeuristics article
    r.qualityScore = clamp100 rawQ
    ∧ r.credibilityScore = clamp100 (rawQ + (q : ℚ) * 3)
    ∧ r.biasScore = 0
    ∧ r.isOpinion = decide (0 < o)
    ∧ r.isFactual = decide (o = 0 ∧ s < 2) := by
  intro fullText q s o contentLen rawQ r
  refine ⟨rfl, ?_, rfl, rfl, rfl⟩
  show (AiAnalyzer.analyzeWithHeuristics article).credibilityScore = _
  simp only [AiAnalyzer.analyzeWithHeuristics]
  rw [show ∀ x : ℚ, max 0 (min 100 (min 100 (max 0 x))) = clamp100 (min 100 (max 0 x))
      from fun x => rfl, ← clamp100_comm, clamp100_idem]

/-- Counterexample for C6 as stated: on an article whose text contains
one quality phrase and seven sensational words, the running quality
total is −5 (clamped to a returned qualityScore of 0), and the code
computes credibilityScore = clamp(−5 + 3) = 0, whereas the claimed
formula clamp(qualityScore + qualityMatches·3) = clamp(0 + 3) gives
3. -/
theorem analyzeWithHeuristics_credibility_counterexample :
    AiAnalyzer.countIncluded AiAnalyzer.qualityPatterns (AiAnalyzer.heuristicFullText
      ⟨some "according to shocking breaking urgent explosive bombshell unbelievable incredible",
        none, none⟩) = 1
    ∧ AiAnalyzer.analyzeWithHeuristics
        ⟨some "according to shocking breaking urgent explosive bombshell unbelievable incredible",
          none, none⟩
        = ⟨0, 0, 0, "neutral", false, false, "heuristic-v1"⟩
    ∧ (AiAnalyzer.analyzeWithHeuristics
        ⟨some "according to shocking breaking urgent explosive bombshell unbelievable incredible",
          none, none⟩).credibilityScore
      ≠ clamp100 ((AiAnalyzer.analyzeWithHeuristics
        ⟨some "according to shocking breaking urgent explosive bombshell unbelievable incredible",
          none, none⟩).qualityScore + (1 : ℚ) * 3) := by
  have hq : AiAnalyzer.countIncluded AiAnalyzer.qualityPatterns (AiAnalyzer.heuristicFullText
      ⟨some "according to shocking breaking urgent explosive bombshell unbelievable incredible",
        none, none⟩) = 1 := by decide
  have hs : AiAnalyzer.countIncluded AiAnalyzer.sensationalPatterns (AiAnalyzer.heuristicFullText
      ⟨some "according to shocking breaking urgent explosive bombshell unbelievable incredible",
        none, none⟩) = 7 := by decide
  have ho : AiAnalyzer.countIncluded AiAnalyzer.opinionPatterns (AiAnalyzer.heuristicFullText
      ⟨some "according to shocking breaking urgent explosive bombshell unbelievable incredible",
        none, none⟩) = 0 := by decide
  have hp : AiAnalyzer.countIncluded AiAnalyzer.positiveWords (AiAnalyzer.heuristicFullText
      ⟨some "according to shocking breaking urgent explosive bombshell unbelievable incredible",
        none, none⟩) = 0 := by decide
  have hn : AiAnalyzer.countIncluded AiAnalyzer.negativeWords (AiAnalyzer.heuristicFullText
      ⟨some "according to shocking breaking urgent explosive bombshell unbelievable incredible",
        none, none⟩) = 0 := by decide
  have hlen : ((jsToLower ((none : Option String).getD "")).length) = 0 := by decide
  have hr : AiAnalyzer.analyzeWithHeuristics
      ⟨some "according to shocking breaking urgent explosive bombshell unbelievable incredible",
        none, none⟩
      = ⟨0, 0, 0, "neutral", false, false, "heuristic-v1"⟩ := by
    simp only [AiAnalyzer.analyzeWithHeuristics, hq, hs, ho, hp, hn, hlen]
    norm_num
  refine ⟨hq, hr, ?_⟩
  rw [hr]
  show (0 : ℚ) ≠ clamp100 ((0 : ℚ) + 1 * 3)
  rw [clamp100_eq_self (by norm_num) (by norm_num)]
  norm_num

/-- Counterexample for C4 as stated: for the input
`{title: "", description: "shocking", content: ""}` the word "shocking"
matches only the broader text, so clickbaitScore = 0,
sensationalismScore = 15 and qualityBonus = 0; the claimed formula
`clamp(100 − (0+15)/2 + 0, 0, 100)` gives 92.5, but the code returns
the rounded score 93 — the claim omits the rounding. -/
theorem analyzeKeywords_round_counterexample :
    (KeywordFilter.analyzeKeywords KeywordFilter.jsOracle
        ⟨none, some "shocking", none⟩).clickbaitScore = 0
    ∧ (KeywordFilter.analyzeKeywords KeywordFilter.jsOracle
        ⟨none, some "shocking", none⟩).sensationalismScore = 15
    ∧ (KeywordFilter.analyzeKeywords KeywordFilter.jsOracle
        ⟨none, some "shocking", none⟩).qualityIndicators = []
    ∧ (KeywordFilter.analyzeKeywords KeywordFilter.jsOracle
        ⟨none, some "shocking", none⟩).score = 93
    ∧ ((93 : ℚ) ≠ clamp100 (100 - (((0 : ℚ) + 15) / 2) + 0)) := by
  have h1 : (KeywordFilter.CLICKBAIT_PATTERNS.filter
      (fun p => KeywordFilter.jsOracle.testPattern p
        (jsToLower (((none : Option String)).getD "")))).length = 0 := by decide
  have h2 : (KeywordFilter.SENSATIONAL_WORDS.flatMap (fun w =>
      if KeywordFilter.jsOracle.testWord w
          (jsToLower (((none : Option String)).getD "")) then [w, w]
      else if KeywordFilter.jsOracle.testWord w
          (jsToLower (((none : Option String)).getD "") ++ " "
            ++ jsToLower (((some "shocking" : Option String)).getD "") ++ " "
            ++ jsToLower (((none : Option String)).getD "")) then [w]
      else [])).length = 1 := by decide
  have h3 : (KeywordFilter.QUALITY_INDICATORS.filter (fun i =>
      strIncludes (jsToLower (((none : Option String)).getD "") ++ " "
        ++ jsToLower (((some "shocking" : Option String)).getD "") ++ " "
        ++ jsToLower (((none : Option String)).getD "")) (jsToLower i))).length = 0 := by
    decide
  refine ⟨?_, ?_, ?_, ?_, ?_⟩
  · simp only [KeywordFilter.analyzeKeywords, h1, h2, h3]
    norm_num [jsRound]
  · simp only [KeywordFilter.analyzeKeywords, h1, h2, h3]
    norm_num [jsRound]
  · decide
  · simp only [KeywordFilter.analyzeKeywords, h1, h2, h3]
    norm_num [jsRound]
    rw [clamp100_eq_self (by norm_num) (by norm_num)]
    norm_num
  · rw [clamp100_eq_self (by norm_num) (by norm_num)]
    norm_num

namespace ViralDetector

lemma mem_insertByCount {x c : String × List VArticle} {l : List (String × List VArticle)}
    (h : x ∈ insertByCount c l) : x = c ∨ x ∈ l := by
  induction l with
  | nil => simpa [insertByCount] using h
  | cons d ds ih =>
    rw [insertByCount] at h
    by_cases hc : d.2.length < c.2.length
    · rw [if_pos hc] at h
      rcases List.mem_cons.mp h with h | h
      · exact Or.inl h
      · exact Or.inr h
    · rw [if_neg hc] at h
      rcases List.mem_cons.mp h with h | h
      · exact Or.inr (h ▸ List.mem_cons_self d ds)
      · rcases ih h with h | h
        · exact Or.inl h
        · exact Or.inr (List.mem_cons_of_mem d h)

lemma mem_sortByCountDesc {x : String × List VArticle} {l : List (String × List VArticle)}
    (h : x ∈ sortByCountDesc l) : x ∈ l := by
  induction l with
  | nil =>
    simp [sortByCountDesc] at h
  | cons c cs ih =>
    rw [sortByCountDesc, List.foldr_cons] at h
    rcases mem_insertByCount h with h | h
    · exact h ▸ List.mem_cons_self c cs
    · exact List.mem_cons_of_mem c (ih h)

lemma viralClusters_count {articles : List VArticle} {c : String × List VArticle}
    (h : c ∈ viralClusters articles) : 3 ≤ c.2.length := by
  have h1 := List.mem_of_mem_take h
  have h2 := mem_sortByCountDesc h1
  have h3 := (List.mem_filter.mp h2).2
  simp at h3
  exact h3

lemma detectLoop_sound (clusters : List (String × List VArticle)) :
    ∀ (stories : List ViralStory), (∀ c ∈ clusters, 3 ≤ c.2.length) →
      ∀ s ∈ detectLoop stories clusters,
        3 ≤ s.relatedArticles.length
        ∧ ∀ e ∈ stories, ∀ k ∈ e.keywords, k ∉ s.keywords := by
  induction clusters with
  | nil =>
    intro stories _ s hs
    simp [detectLoop] at hs
  | cons c rest ih =>
    intro stories hc s hs
    rw [detectLoop] at hs
    by_cases hex : stories.any
        (fun st => st.keywords.any (fun k => (sigKeywords c.1).contains k))
    · rw [if_pos hex] at hs
      exact ih stories (fun d hd => hc d (List.mem_cons_of_mem c hd)) s hs
    · rw [if_neg hex] at hs
      rcases List.mem_cons.mp hs with h | h
      · subst h
        refine ⟨hc c (List.mem_cons_self c rest), ?_⟩
        intro e he k hk hk2
        apply hex
        rw [List.any_eq_true]
        refine ⟨e, he, ?_⟩
        rw [List.any_eq_true]
        refine ⟨k, hk, ?_⟩
        simpa using hk2
      · have h2 := ih (stories ++ [mkViralStory c])
          (fun d hd => hc d (List.mem_cons_of_mem c hd)) s h
        exact ⟨h2.1, fun e he k hk => h2.2 e (List.mem_append_left _ he) k hk⟩

end ViralDetector

/-- C5 (amended): every story created by `detectViralStories` comes
from a cluster of at least 3 articles (article count, not a
distinct-source count) whose significant keywords overlap no story
already in the collection; clusters of fewer than 3 articles never
produce a story. -/
theorem detectViralStories_creation (existing : List ViralDetector.ViralStory)
    (articles : List ViralDetector.VArticle) (s : ViralDetector.ViralStory)
    (hs : s ∈ ViralDetector.detectViralStories existing articles) :
    3 ≤ s.relatedArticles.length
    ∧ ∀ e ∈ existing, ∀ k ∈ e.keywords, k ∉ s.keywords :=
  ViralDetector.detectLoop_sound (ViralDetector.viralClusters articles) existing
    (fun _ h => ViralDetector.viralClusters_count h) s hs

/-- Witness for C5: four distinct-source articles titled
"Election Results: …" form one cluster whose created story carries all
four articles and overlaps no existing story (the collection starts
empty). -/
theorem detectViralStories_creation_witness :
    3 ≤ (ViralDetector.mkViralStory ("election results",
      [⟨1, "Election Results: A", "S1", "u1", 0, 70⟩,
       ⟨2, "Election Results: B", "S2", "u2", 0, 70⟩,
       ⟨3, "Election Results: C", "S3", "u3", 0, 70⟩,
       ⟨4, "Election Results: D", "S4", "u4", 0, 70⟩])).relatedArticles.length := by
  have hdet : ViralDetector.detectViralStories []
      [⟨1, "Election Results: A", "S1", "u1", 0, 70⟩,
       ⟨2, "Election Results: B", "S2", "u2", 0, 70⟩,
       ⟨3, "Election Results: C", "S3", "u3", 0, 70⟩,
       ⟨4, "Election Results: D", "S4", "u4", 0, 70⟩]
      = [ViralDetector.mkViralStory ("election results",
        [⟨1, "Election Results: A", "S1", "u1", 0, 70⟩,
         ⟨2, "Election Results: B", "S2", "u2", 0, 70⟩,
         ⟨3, "Election Results: C", "S3", "u3", 0, 70⟩,
         ⟨4, "Election Results: D", "S4", "u4", 0, 70⟩])] := rfl
  exact (detectViralStories_creation []
    [⟨1, "Election Results: A", "S1", "u1", 0, 70⟩,
     ⟨2, "Election Results: B", "S2", "u2", 0, 70⟩,
     ⟨3, "Election Results: C", "S3", "u3", 0, 70⟩,
     ⟨4, "Election Results: D", "S4", "u4", 0, 70⟩] _
    (by rw [hdet]; exact List.mem_singleton_self _)).1

/-- Counterexample for C5 as stated: three articles from the *same*
source share the title prefix "Election", and `detectViralStories`
still creates a story for the group — its `sourcesCount` is 1, so the
claimed distinct-source threshold is not enforced by the code. -/
theorem detectViralStories_single_source_counterexample :
    ViralDetector.detectViralStories []
        [⟨1, "Election: A", "OneSource", "u1", 0, 70⟩,
         ⟨2, "Election: B", "OneSource", "u2", 0, 70⟩,
         ⟨3, "Election: C", "OneSource", "u3", 0, 70⟩]
      = [ViralDetector.mkViralStory ("election",
        [⟨1, "Election: A", "OneSource", "u1", 0, 70⟩,
         ⟨2, "Election: B", "OneSource", "u2", 0, 70⟩,
         ⟨3, "Election: C", "OneSource", "u3", 0, 70⟩])]
    ∧ (ViralDetector.mkViralStory ("election",
        [⟨1, "Election: A", "OneSource", "u1", 0, 70⟩,
         ⟨2, "Election: B", "OneSource", "u2", 0, 70⟩,
         ⟨3, "Election: C", "OneSource", "u3", 0, 70⟩])).sourcesCount = 1 := by
  exact ⟨rfl, by decide⟩

/-- Witness for C9: with an oracle matching nothing, all four counts are
zero and the analysis is exactly `{none, [], 0}`. -/
theorem analyzeForMisinformation_spec_witness :
    FactChecker.analyzeForMisinformation ⟨fun _ _ => false⟩ "hello" none
      = ⟨"none", [], 0⟩ := by
  exact (analyzeForMisinformation_spec ⟨fun _ _ => false⟩ "hello" none).2.2.2
    ⟨by decide, by decide, by decide, by decide⟩


